import Mathlib

/-!
# Verification of the therror error-construction library

A shallow embedding of the composable error-construction core of the
`therror` JavaScript library (lib/therror.js, 4.x line: the variadic
argument normalizer `getArguments`, the `Therror` base class, and the
facet mixins `Namespaced`, `Notificator`, `Loggable`, `WithMessage`,
`HTTP` and `ServerError`), together with theorems checking the
natural-language specification against that code.

JavaScript runtime values that can flow through the constructor are
modelled by the inductive `JsVal`; error instances by the record `Inst`
(identity name, own enumerable properties in insertion order, the cause
reference, and the stored message template).  Methods that read or write
instance state are modelled as explicit state-passing functions.  The
lodash template engine (an external collaborator of the library) is
modelled by `render`, which substitutes interpolation placeholders
referencing the instance's own properties; unresolved placeholders render
as the empty string, per the collaborator contract assumed by the spec.
-/

namespace TherrorModel

/-- JavaScript values relevant to the therror constructor contract:
`undefined`, `null`, strings, numbers, booleans, `Error` instances (carrying
their `message` string; an Error's `message` is a non-enumerable own
property, so assigning an Error spreads nothing), and plain objects
with insertion-ordered own enumerable fields. -/
inductive JsVal where
  | vUndefined : JsVal
  | vNull : JsVal
  | vStr : String → JsVal
  | vNum : Int → JsVal
  | vBool : Bool → JsVal
  | vErr : String → JsVal
  | vObj : List (String × JsVal) → JsVal

/-- `_.isString(v)` -/
def isStr : JsVal → Bool
  | .vStr _ => true
  | _ => false

/-- `v instanceof Error` -/
def isErrV : JsVal → Bool
  | .vErr _ => true
  | _ => false

/-- `_.isObject(v)`: true for objects (including Error instances). -/
def isObjectV : JsVal → Bool
  | .vObj _ => true
  | .vErr _ => true
  | _ => false

/-- `_.isUndefined(v)` -/
def isUndef : JsVal → Bool
  | .vUndefined => true
  | _ => false

/-- JavaScript truthiness of a value. -/
def jsTruthy : JsVal → Bool
  | .vUndefined => false
  | .vNull => false
  | .vStr s => !(s == "")
  | .vNum n => !(n == 0)
  | .vBool b => b
  | .vErr _ => true
  | .vObj _ => true

/-- Own-field lookup on an insertion-ordered field list; a missing key
reads as `undefined`, as in JavaScript. -/
def lookupField (fs : List (String × JsVal)) (k : String) : JsVal :=
  match fs.find? (fun p => p.1 == k) with
  | some p => p.2
  | none => .vUndefined

/-- `v.message` on a defined value: an Error yields its message string, a
plain object yields its `message` field (or `undefined`), primitives
yield `undefined`.  (`undefined.message` would throw; the throwing
variant is `jsGetMessageE` below.) -/
def jsGetMessage : JsVal → JsVal
  | .vErr m => .vStr m
  | .vObj fs => lookupField fs "message"
  | _ => .vUndefined

/-- `String(v)` coercion. -/
def jsToStr : JsVal → String
  | .vUndefined => "undefined"
  | .vNull => "null"
  | .vStr s => s
  | .vNum n => toString n
  | .vBool b => if b then "true" else "false"
  | .vErr m => if m = "" then "Error" else "Error: " ++ m
  | .vObj _ => "[object Object]"

/-- lodash `toString` as applied by `_.template` to its argument:
`undefined` becomes the empty template, anything else its string
coercion. -/
def lodashToString : JsVal → String
  | .vUndefined => ""
  | .vNull => ""
  | v => jsToStr v

/-- `a || b` -/
def jsOr (a b : JsVal) : JsVal := if jsTruthy a then a else b

/-- `a && b` -/
def jsAnd (a b : JsVal) : JsVal := if jsTruthy a then b else a

/-- `arguments[i]`: reading past the end of the argument list yields
`undefined`. -/
def argAt (l : List JsVal) (i : Nat) : JsVal := l.getD i .vUndefined

/-- The canonical triple produced by the argument normalizer
`getArguments` (lib/therror.js): `cause`, the raw message value (the
template before defaulting), and the list of property arguments. -/
structure NormArgs where
  cause : JsVal
  message : JsVal
  properties : List JsVal

/-- Steps 2-4 of `getArguments`, applied after the optional cause has
been split off: a (possibly second-position) string selects the
message-then-properties shape; otherwise a leading object makes all
arguments properties with the message taken from the first object's
`message` field; otherwise a defined primitive is coerced to a string
message with no properties. -/
def parseTail (args : List JsVal) : JsVal × List JsVal :=
  if isStr (argAt args 0) || isStr (argAt args 1) then
    (argAt args 0, args.drop 1)
  else if isObjectV (argAt args 0) then
    (jsGetMessage (argAt args 0), args)
  else
    (if isUndef (argAt args 0) then .vUndefined else .vStr (jsToStr (argAt args 0)), [])

/-- `getArguments(originalArguments)` (lib/therror.js): if the first
argument is an `Error` instance or the second argument is a string, the
first argument becomes the cause and the remaining arguments shift left;
the rest of the parse is `parseTail`. -/
def getArguments (oa : List JsVal) : NormArgs :=
  if isErrV (argAt oa 0) || isStr (argAt oa 1) then
    { cause := argAt oa 0
      message := (parseTail (oa.drop 1)).1
      properties := (parseTail (oa.drop 1)).2 }
  else
    { cause := .vUndefined
      message := (parseTail oa).1
      properties := (parseTail oa).2 }

/-- Set an own property, preserving the insertion position of an
existing key (JavaScript own-property order), appending a new key. -/
def setOwn : List (String × JsVal) → String → JsVal → List (String × JsVal)
  | [], k, v => [(k, v)]
  | (k', v') :: rest, k, v =>
    if k' == k then (k', v) :: rest else (k', v') :: setOwn rest k v

/-- Keys that are not ordinary data slots on a fresh `Therror` instance
when the constructor's property loop runs: the constructor has already
installed `name` (own, writable, non-enumerable), `isTherror` (own,
non-writable, non-enumerable), `stack` (own, non-enumerable, from
`Error.captureStackTrace`), and the class prototype carries the
`message` get/set accessor.  Assigning any of these therefore never
creates an own enumerable property. -/
def reservedKey (k : String) : Bool :=
  k == "message" || k == "name" || k == "stack" || k == "isTherror"

/-- The own-enumerable-property effect of assigning the fields of a
source object onto the instance, in order: a reserved key is absorbed
by the pre-installed descriptor (setter, non-enumerable slot, or — for
`isTherror` — a `TypeError`, modelled in the `Except` layer below);
any other key becomes an own enumerable property. -/
def assignFields (t : List (String × JsVal)) :
    List (String × JsVal) → List (String × JsVal)
  | [] => t
  | (k, v) :: fs => assignFields (if reservedKey k then t else setOwn t k v) fs

/-- `Object.assign(target, src)` restricted to its effect on the own
enumerable properties: copies the own enumerable fields of a plain
object in order, except those intercepted by the instance's
pre-installed descriptors (`reservedKey`); any other source value
contributes nothing. -/
def objAssign (t : List (String × JsVal)) : JsVal → List (String × JsVal)
  | .vObj fs => assignFields t fs
  | _ => t

/-- The own-enumerable-property effect of the constructor's property
loop from index `i` on: `this[index] = property` for a string entry,
`Object.assign(this, property)` otherwise. -/
def applyPropsListFrom (t : List (String × JsVal)) (i : Nat) :
    List JsVal → List (String × JsVal)
  | [] => t
  | .vStr s :: rest => applyPropsListFrom (setOwn t (toString i) (.vStr s)) (i + 1) rest
  | v :: rest => applyPropsListFrom (objAssign t v) (i + 1) rest

/-- The property-installation loop of the `Therror` constructor,
projected to the own enumerable properties:
`properties.forEach((property, index) => ...)` stores a string property
under its numeric index and object-assigns anything else. -/
def applyProperties (t : List (String × JsVal)) (ps : List JsVal) :
    List (String × JsVal) :=
  applyPropsListFrom t 0 ps

/-- The value handed to `_.template` by the `Therror` constructor:
`args.message || (args.cause && args.cause.message) || 'Unknown error'`. -/
def templateSource (n : NormArgs) : JsVal :=
  jsOr n.message (jsOr (jsAnd n.cause (jsGetMessage n.cause)) (.vStr "Unknown error"))

/-- An error instance: identity `name`, own enumerable properties in
insertion order, the stored cause reference, and the stored message
template source. -/
structure Inst where
  name : String
  props : List (String × JsVal)
  causeV : JsVal
  template : String

/-- One assignment step `this[k] = v` of `Object.assign(this, src)` on
a `Therror` instance, descriptor-aware: `message` invokes the inherited
prototype setter (`this[templateSymbol] = _.template(v)`), so it
updates the stored template and never becomes an own property; `name`
updates the own writable non-enumerable name slot (held here in its
string form, the form in which every modelled read uses it); `stack`
updates the own non-enumerable stack slot, which this embedding does
not model; `isTherror` is own and non-writable — the real assignment
throws a `TypeError` (see `setInstKeyE`), so no state is written here;
every other key becomes an own enumerable property. -/
def setInstKey (e : Inst) (k : String) (v : JsVal) : Inst :=
  if k == "message" then { e with template := lodashToString v }
  else if k == "name" then { e with name := jsToStr v }
  else if k == "stack" then e
  else if k == "isTherror" then e
  else { e with props := setOwn e.props k v }

/-- `Object.assign(this, {fields})`: assigns the source fields onto the
instance in order, through the descriptors (`setInstKey`). -/
def assignFieldsInst : Inst → List (String × JsVal) → Inst
  | e, [] => e
  | e, (k, v) :: fs => assignFieldsInst (setInstKey e k v) fs

/-- `Object.assign(this, property)` for an arbitrary source value: a
plain object assigns its fields; every other value (including `Error`
instances, whose `message` is a non-enumerable own property, and
`null`/`undefined`, which `Object.assign` skips) contributes nothing. -/
def objAssignInst (e : Inst) : JsVal → Inst
  | .vObj fs => assignFieldsInst e fs
  | _ => e

/-- The constructor's property-installation loop over the instance
state, from index `i`: a string entry is stored under its numeric index
(`this[index] = property`, a fresh own enumerable key), anything else
is `Object.assign`ed. -/
def applyPropsFrom (e : Inst) (i : Nat) : List JsVal → Inst
  | [] => e
  | .vStr s :: rest =>
    applyPropsFrom { e with props := setOwn e.props (toString i) (.vStr s) } (i + 1) rest
  | v :: rest => applyPropsFrom (objAssignInst e v) (i + 1) rest

/-- The `Therror` base-class constructor (lib/therror.js): normalizes the
variadic arguments, defines `name` and `isTherror`, runs the property
loop over the instance (which may retemplate via the `message` setter or
rename via the `name` slot), then records the cause and installs the
resolved template (overwriting any template the loop set).  `nm` is
`this.constructor.name`, the most-derived class name; the anonymous base
maps `Therror` to `Error`. -/
def therrorCtor (nm : String) (args : List JsVal) : Inst :=
  let n := getArguments args
  let e1 := applyPropsFrom
    { name := if nm = "Therror" then "Error" else nm
      props := []
      causeV := .vUndefined
      template := "" } 0 n.properties
  { e1 with
    causeV := n.cause
    template := lodashToString (templateSource n) }

/-- Structural whitespace trim (the `.trim()` applied by the message
getter and `parse`), written so that it reduces by computation. -/
def trimChars (cs : List Char) : List Char :=
  ((cs.dropWhile Char.isWhitespace).reverse.dropWhile Char.isWhitespace).reverse

/-- `s.trim()` on strings. -/
def jsTrim (s : String) : String := String.mk (trimChars s.toList)

/-- The interpolated form of a value inside a rendered template: lodash
prints nullish interpolation results as the empty string, anything else
via string coercion. -/
def interpVal : JsVal → String
  | .vUndefined => ""
  | .vNull => ""
  | v => jsToStr v

/-- Opening brace character (written via its code point). -/
def lbrace : Char := Char.ofNat 123

/-- Closing brace character (written via its code point). -/
def rbrace : Char := Char.ofNat 125

/-- Fuel-indexed template scanner: replaces each `$`-brace-key-brace
placeholder with the interpolated value of the referenced own property
and copies every other character. -/
def renderGo (props : List (String × JsVal)) : Nat → List Char → List Char
  | 0, _ => []
  | _ + 1, [] => []
  | fuel + 1, c :: rest =>
    if c = '$' && (match rest with | c2 :: _ => c2 = lbrace | [] => false) then
      let body := (rest.drop 1).takeWhile (fun ch => ch ≠ rbrace)
      let rest2 := ((rest.drop 1).dropWhile (fun ch => ch ≠ rbrace)).drop 1
      (interpVal (lookupField props (String.mk (trimChars body)))).toList ++
        renderGo props fuel rest2
    else
      c :: renderGo props fuel rest

/-- The external template collaborator: `_.template(tpl)(ctx)` rendering
`tpl` against the instance's own enumerable property table (the
interpolation context handed over by the getter and `parse`; lookups of
the instance's non-enumerable slots, such as `name`, are not
modelled). -/
def render (tpl : String) (props : List (String × JsVal)) : String :=
  String.mk (renderGo props (tpl.length + 1) tpl.toList)

/-- `cause()`: returns the stored cause reference. -/
def Inst.cause (e : Inst) : JsVal := e.causeV

/-- The `message` getter result: the stored template rendered against
the live instance properties, trimmed. -/
def Inst.message (e : Inst) : String := jsTrim (render e.template e.props)

/-- The `message` getter as a state computation: its body performs no
write to the instance, so it returns the instance unchanged. -/
def readMessage (e : Inst) : String × Inst := (e.message, e)

/-- `parse(tpl)` as a state computation: renders an arbitrary template
against the same context; its body performs no write to the instance. -/
def Inst.parse (e : Inst) (tpl : String) : String × Inst :=
  (jsTrim (render tpl e.props), e)

/-- The `message` setter: stores `_.template(value)`, i.e. replaces the
stored template source; nothing else on the instance is written. -/
def setMessage (e : Inst) (value : String) : Inst := { e with template := value }

/-- A plain property write `e[k] = v` on the instance. -/
def setProp (e : Inst) (k : String) (v : JsVal) : Inst :=
  { e with props := setOwn e.props k v }

/-! ## HTTP status registry -/

/-- `Therror.HTTP.STATUS_CODES`: the static code-to-reason-phrase table. -/
def STATUS_CODES : Nat → Option String
  | 400 => some "Bad Request"
  | 401 => some "Unauthorized"
  | 402 => some "Payment Required"
  | 403 => some "Forbidden"
  | 404 => some "Not Found"
  | 405 => some "Method Not Allowed"
  | 406 => some "Not Acceptable"
  | 407 => some "Proxy Authentication Required"
  | 408 => some "Request Timeout"
  | 409 => some "Conflict"
  | 410 => some "Gone"
  | 411 => some "Length Required"
  | 412 => some "Precondition Failed"
  | 413 => some "Request Entity Too Large"
  | 414 => some "Request-URI Too Large"
  | 415 => some "Unsupported Media Type"
  | 416 => some "Requested Range Not Satisfiable"
  | 417 => some "Expectation Failed"
  | 418 => some "I\u0027m a teapot"
  | 422 => some "Unprocessable Entity"
  | 423 => some "Locked"
  | 424 => some "Failed Dependency"
  | 425 => some "Unordered Collection"
  | 426 => some "Upgrade Required"
  | 428 => some "Precondition Required"
  | 429 => some "Too Many Requests"
  | 431 => some "Request Header Fields Too Large"
  | 451 => some "Unavailable For Legal Reasons"
  | 500 => some "Internal Server Error"
  | 501 => some "Not Implemented"
  | 502 => some "Bad Gateway"
  | 503 => some "Service Unavailable"
  | 504 => some "Gateway Timeout"
  | 505 => some "HTTP Version Not Supported"
  | 506 => some "Variant Also Negotiates"
  | 507 => some "Insufficient Storage"
  | 509 => some "Bandwidth Limit Exceeded"
  | 510 => some "Not Extended"
  | 511 => some "Network Authentication Required"
  | _ => none

/-- `STATUS_CODES[code] || STATUS_CODES[500]`: the reason phrase of a
code, with unknown codes mapping to the 500 phrase. -/
def reasonOr500 (sc : Nat) : String :=
  match STATUS_CODES sc with
  | some s => s
  | none => "Internal Server Error"

/-! ## lodash `camelCase` / `upperFirst` (used by `getPayloadErrorName`) -/

/-- The apostrophe character (written via its code point); lodash word
splitting deletes apostrophes before splitting. -/
def apos : Char := Char.ofNat 39

/-- Splits a character list into maximal alphanumeric words. -/
def splitWordsAux (acc : List Char) : List Char → List (List Char)
  | [] => if acc.isEmpty then [] else [acc.reverse]
  | c :: cs =>
    if c.isAlpha || c.isDigit then splitWordsAux (c :: acc) cs
    else if acc.isEmpty then splitWordsAux [] cs
    else acc.reverse :: splitWordsAux [] cs

/-- `word.toLower` with the first letter capitalized. -/
def capWord (w : List Char) : List Char :=
  match w with
  | [] => []
  | c :: cs => c.toUpper :: cs.map Char.toLower

/-- `_.camelCase`: delete apostrophes, split into words, lowercase the
first word, capitalize the rest, concatenate. -/
def camelCase (s : String) : String :=
  match splitWordsAux [] (s.toList.filter (fun c => c ≠ apos)) with
  | [] => ""
  | w :: ws => String.mk (w.map Char.toLower ++ (ws.map capWord).flatten)

/-- `_.upperFirst`. -/
def upperFirst (s : String) : String :=
  match s.toList with
  | [] => ""
  | c :: cs => String.mk (c.toUpper :: cs)

/-! ## HTTP payload -/

/-- The payload shape returned by `toPayload()`: exactly two keys. -/
structure Payload where
  error : String
  message : String
deriving DecidableEq

/-- `getPayloadMessage()` of the current HTTP facet (lib/therror.js 4.x):
below 500 the rendered instance message, otherwise the registry reason
phrase of the configured code (500's phrase for unknown codes).  `sc` is
the facet's closure-captured status code. -/
def getPayloadMessage (sc : Nat) (e : Inst) : String :=
  if sc < 500 then e.message else reasonOr500 sc

/-- `getPayloadErrorName()` of the current HTTP facet: below 500 the
instance identity, otherwise the PascalCased reason phrase. -/
def getPayloadErrorName (sc : Nat) (e : Inst) : String :=
  if sc < 500 then e.name else upperFirst (camelCase (reasonOr500 sc))

/-- `toPayload()` of the current HTTP facet (lib/therror.js 4.x). -/
def toPayload (sc : Nat) (e : Inst) : Payload :=
  { error := getPayloadErrorName sc e, message := getPayloadMessage sc e }

/-- `toPayload()` of the legacy HTTP facet (the 2.x lib/therror.js also
present in the repository): for a configured status code of 500 or more
it substitutes the fixed generic name and text. -/
def toPayloadLegacy (sc : Nat) (e : Inst) : Payload :=
  if sc ≥ 500 then
    { error := "InternalServerError", message := "An internal server error occurred" }
  else
    { error := e.name, message := e.message }

/-! ## Facet composer

A composed error class is modelled by its construction behavior: `run`
maps the JavaScript `arguments` list to the constructed instance
together with the list of events published (in order) on the
process-wide bus during construction; each event carries the topic and
the state of the instance at the moment of publication.  `level` and
`statusCode` are the closure-captured accessor constants installed by
the `Loggable` and `HTTP` facets (absent on classes without them). -/
structure ErrClass where
  run : List JsVal → Inst × List (String × Inst)
  level : Option String
  statusCode : Option Nat

/-- The Base Error Entity as a composable class: constructing emits no
events.  `nm` is the most-derived declared class name. -/
def baseClass (nm : String) : ErrClass :=
  { run := fun args => (therrorCtor nm args, [])
    level := none
    statusCode := none }

/-- A fixed-arity facet constructor `constructor(err, msg, prop)`
receives exactly its three declared parameters: extra caller arguments
are dropped and missing ones read as `undefined`. -/
def firstThree (args : List JsVal) : List JsVal :=
  [argAt args 0, argAt args 1, argAt args 2]

/-- `Therror.Namespaced(name, Base)` (lib/therror.js 4.x): a fixed-arity
`(err, msg, prop)` constructor that forwards to the base and then
prepends `name + "."` to a non-empty identity (or sets it outright). -/
def Namespaced (nsName : String) (B : ErrClass) : ErrClass :=
  { run := fun args =>
      let r := B.run (firstThree args)
      ({ r.1 with
          name := if r.1.name ≠ "" then nsName ++ "." ++ r.1.name else nsName },
        r.2)
    level := B.level
    statusCode := B.statusCode }

/-- `Therror.Notificator(Base)`: a fixed-arity `(err, msg, prop)`
constructor that forwards to the base and then publishes a `create`
event carrying `this` (the instance as constructed so far). -/
def Notificator (B : ErrClass) : ErrClass :=
  { run := fun args =>
      let r := B.run (firstThree args)
      (r.1, r.2 ++ [("create", r.1)])
    level := B.level
    statusCode := B.statusCode }

/-- `Therror.Loggable(level, Base)` (4.x): no constructor wrapping; adds
the `level()` accessor, defaulting to `"error"` when the level option is
absent. -/
def Loggable (lvl : Option String) (B : ErrClass) : ErrClass :=
  { run := B.run
    level := some (lvl.getD "error")
    statusCode := B.statusCode }

/-- `Therror.WithMessage(msg, Base)` (4.x): a variadic constructor that
re-normalizes its arguments, defaults the message to the configured one
and forwards `(cause, message, properties[0])` to the base; property
entries past the first are not forwarded. -/
def WithMessage (msg : String) (B : ErrClass) : ErrClass :=
  { run := fun args =>
      let n := getArguments args
      let m := jsOr n.message (.vStr msg)
      B.run [n.cause, m, argAt n.properties 0]
    level := B.level
    statusCode := B.statusCode }

/-- `Therror.HTTP(statusCode, Base)` (4.x): the status code defaults to
500 when absent; the variadic constructor re-normalizes its arguments,
defaults the message to the cause's message and then to the registry
reason phrase, and forwards `(cause, message, properties[0])` to the
base; adds the closure-captured `statusCode` accessor. -/
def HTTP (scOpt : Option Nat) (B : ErrClass) : ErrClass :=
  let sc := scOpt.getD 500
  { run := fun args =>
      let n := getArguments args
      let m := jsOr n.message
        (jsOr (jsAnd n.cause (jsGetMessage n.cause)) (.vStr (reasonOr500 sc)))
      B.run [n.cause, m, argAt n.properties 0]
    level := B.level
    statusCode := some sc }

/-- `Therror.ServerError(opt, Base)` (4.x source): composition of
`Notificator`, `Loggable` with the `level` option, `WithMessage` with
the `message` option when one is given (a pass-through otherwise) and
`HTTP` with the `statusCode` option. -/
def ServerError (optLevel : Option String) (optStatus : Option Nat)
    (optMessage : Option String) (B : ErrClass) : ErrClass :=
  let withMessage : ErrClass → ErrClass :=
    match optMessage with
    | some m => WithMessage m
    | none => fun X => X
  Notificator (Loggable optLevel (withMessage (HTTP optStatus B)))

/-- The spec-side reading of `ServerError` (spec section 4.4), stated as
the explicit composition
`Notificator(Loggable(level, WithMessage(message, HTTP(statusCode, Base))))`
with the documented defaults — `level` defaulting to `"error"` and
`statusCode` to 500 — applied at the composition site, and the
`WithMessage` layer omitted when no message option is given. -/
def serverErrorSpec (optLevel : Option String) (optStatus : Option Nat)
    (optMessage : Option String) (B : ErrClass) : ErrClass :=
  let lvl := optLevel.getD "error"
  let sc := optStatus.getD 500
  match optMessage with
  | some m => Notificator (Loggable (some lvl) (WithMessage m (HTTP (some sc) B)))
  | none => Notificator (Loggable (some lvl) (HTTP (some sc) B))

/-! ## Throwing semantics

The library promises that error construction itself never throws.  To
check this, the normalizer and the base constructor are re-translated
in the `Except` monad with the primitives that can throw modelled
faithfully: property access on an undefined or null value, and
`Object.assign`'s strict-mode `TypeError` when a source key hits the
instance's own non-writable `isTherror` property. -/

/-- `v.message` with real JavaScript partiality: reading a property of
`undefined` throws a `TypeError`. -/
def jsGetMessageE : JsVal → Except String JsVal
  | .vUndefined => .error "TypeError: cannot read properties of undefined"
  | .vNull => .error "TypeError: cannot read properties of null"
  | v => .ok (jsGetMessage v)

/-- `parseTail` with throwing property access (`args[0].message` in the
object branch). -/
def parseTailE (args : List JsVal) : Except String (JsVal × List JsVal) :=
  if isStr (argAt args 0) || isStr (argAt args 1) then
    .ok (argAt args 0, args.drop 1)
  else if isObjectV (argAt args 0) then do
    let m ← jsGetMessageE (argAt args 0)
    .ok (m, args)
  else
    .ok (if isUndef (argAt args 0) then .vUndefined else .vStr (jsToStr (argAt args 0)), [])

/-- `getArguments` with throwing property access. -/
def getArgumentsE (oa : List JsVal) : Except String NormArgs :=
  if isErrV (argAt oa 0) || isStr (argAt oa 1) then do
    let p ← parseTailE (oa.drop 1)
    .ok { cause := argAt oa 0, message := p.1, properties := p.2 }
  else do
    let p ← parseTailE oa
    .ok { cause := .vUndefined, message := p.1, properties := p.2 }

/-- `args.message || (args.cause && args.cause.message) || 'Unknown error'`
with throwing property access and JavaScript short-circuiting: the
`args.cause.message` read happens only when `args.cause` is truthy. -/
def templateSourceE (n : NormArgs) : Except String JsVal :=
  if jsTruthy n.message then .ok n.message
  else if jsTruthy n.cause then do
    let m ← jsGetMessageE n.cause
    if jsTruthy m then .ok m else .ok (.vStr "Unknown error")
  else .ok (.vStr "Unknown error")

/-- One assignment step of `Object.assign(this, src)` with real
JavaScript partiality: class code runs in strict mode and
`Object.assign` performs a throwing `Set`, so a source key that hits
the own non-writable `isTherror` property raises a `TypeError`; every
other key behaves as in `setInstKey`. -/
def setInstKeyE (e : Inst) (k : String) (v : JsVal) : Except String Inst :=
  if k == "isTherror" then
    .error "TypeError: Cannot assign to read only property isTherror"
  else .ok (setInstKey e k v)

/-- `Object.assign(this, {fields})` with the throwing `Set`: keys are
assigned in order until one throws. -/
def assignFieldsInstE : Inst → List (String × JsVal) → Except String Inst
  | e, [] => .ok e
  | e, (k, v) :: fs => do
    let e2 ← setInstKeyE e k v
    assignFieldsInstE e2 fs

/-- `Object.assign(this, property)` with the throwing `Set`. -/
def objAssignInstE (e : Inst) : JsVal → Except String Inst
  | .vObj fs => assignFieldsInstE e fs
  | _ => .ok e

/-- The constructor's property-installation loop with the throwing
`Object.assign`. -/
def applyPropsFromE (e : Inst) (i : Nat) : List JsVal → Except String Inst
  | [] => .ok e
  | .vStr s :: rest =>
    applyPropsFromE { e with props := setOwn e.props (toString i) (.vStr s) } (i + 1) rest
  | v :: rest => do
    let e2 ← objAssignInstE e v
    applyPropsFromE e2 (i + 1) rest

/-- A property argument is free of the one key whose assignment throws:
it is not an object carrying an `isTherror` field. -/
def objSafe : JsVal → Bool
  | .vObj fs => !(fs.any fun p => p.1 == "isTherror")
  | _ => true

/-- No entry of the normalized properties list collides with the own
non-writable `isTherror` capability flag. -/
def propsSafe (ps : List JsVal) : Bool := ps.all objSafe

/-- The `Therror` constructor with real JavaScript partiality: throwing
property access in the normalizer and the template-defaulting chain,
and the throwing `Object.assign` in the property loop, in the
constructor's evaluation order. -/
def therrorCtorE (nm : String) (args : List JsVal) : Except String Inst := do
  let n ← getArgumentsE args
  let e1 ← applyPropsFromE
    { name := if nm = "Therror" then "Error" else nm
      props := []
      causeV := .vUndefined
      template := "" } 0 n.properties
  let t ← templateSourceE n
  .ok { e1 with
        causeV := n.cause
        template := lodashToString t }

/-! ## Helper lemmas -/

/-- `a || b` on two strings picks `b` exactly when `a` is empty. -/
theorem jsOr_str (a b : String) :
    jsOr (.vStr a) (.vStr b) = .vStr (if a == "" then b else a) := by
  unfold jsOr jsTruthy
  cases h : (a == "") <;> simp [h]

/-- The own-enumerable-property effect of one descriptor-aware
assignment step: reserved keys leave the property list unchanged. -/
theorem setInstKey_props (e : Inst) (k : String) (v : JsVal) :
    (setInstKey e k v).props =
      if reservedKey k then e.props else setOwn e.props k v := by
  unfold setInstKey reservedKey
  cases h1 : k == "message" <;> cases h2 : k == "name" <;>
    cases h3 : k == "stack" <;> cases h4 : k == "isTherror" <;>
      simp [h1, h2, h3, h4]

/-- Assigning object fields onto the instance has exactly the
`assignFields` effect on the own enumerable properties. -/
theorem assignFieldsInst_props (fs : List (String × JsVal)) :
    ∀ e : Inst, (assignFieldsInst e fs).props = assignFields e.props fs := by
  induction fs with
  | nil => intro e; rfl
  | cons p fs ih =>
    obtain ⟨k, v⟩ := p
    intro e
    show (assignFieldsInst (setInstKey e k v) fs).props = _
    rw [ih, setInstKey_props]
    rfl

/-- `Object.assign` onto the instance has exactly the `objAssign`
effect on the own enumerable properties. -/
theorem objAssignInst_props (e : Inst) (v : JsVal) :
    (objAssignInst e v).props = objAssign e.props v := by
  cases v
  case vObj fs => exact assignFieldsInst_props fs e
  all_goals rfl

/-- The property loop over the instance has exactly the
`applyPropsListFrom` effect on the own enumerable properties. -/
theorem applyPropsFrom_props (ps : List JsVal) :
    ∀ (i : Nat) (e : Inst),
      (applyPropsFrom e i ps).props = applyPropsListFrom e.props i ps := by
  induction ps with
  | nil => intro i e; rfl
  | cons v rest ih =>
    intro i e
    cases v
    case vStr s => exact ih (i + 1) _
    all_goals exact (ih (i + 1) _).trans (by rw [objAssignInst_props]; rfl)

/-- The constructed instance's own enumerable properties are the
property loop's effect on an empty table. -/
theorem therrorCtor_props (nm : String) (args : List JsVal) :
    (therrorCtor nm args).props =
      applyProperties [] (getArguments args).properties :=
  applyPropsFrom_props (getArguments args).properties 0
    { name := if nm = "Therror" then "Error" else nm, props := [],
      causeV := .vUndefined, template := "" }

/-- A three-argument call whose second argument is a string always
normalizes to cause = first argument, template = the string, properties
= the third argument alone; hence the constructed properties. -/
theorem therrorCtor_props_str_head (nm : String) (c : JsVal) (s : String)
    (ps : JsVal) :
    (therrorCtor nm [c, .vStr s, ps]).props = applyProperties [] [ps] := by
  rw [therrorCtor_props]
  simp [getArguments, parseTail, argAt, isStr, Bool.or_true]

/-- Installing a single object property entry is a plain object-assign. -/
theorem applyProperties_singleton_obj (p : List (String × JsVal)) :
    applyProperties [] [.vObj p] = objAssign [] (.vObj p) := rfl

/-- A non-empty string is truthy. -/
theorem jsTruthy_vStr_of_ne (s : String) (h : s ≠ "") :
    jsTruthy (.vStr s) = true := by
  simp [jsTruthy, h]

/-- `a || b = a` when `a` is truthy. -/
theorem jsOr_of_truthy (a b : JsVal) (h : jsTruthy a = true) : jsOr a b = a := by
  simp [jsOr, h]

/-- `a || b = b` when `a` is falsy. -/
theorem jsOr_of_falsy (a b : JsVal) (h : jsTruthy a = false) : jsOr a b = b := by
  simp [jsOr, h]

set_option maxHeartbeats 2000000 in
/-- The canonical triple consumed by the facet constructors — cause,
raw message, first properties entry — is unchanged by truncating the
argument list to its first three entries: `getArguments` reads the
cause and message from the first two positions and the facets forward
only `properties[0]`. -/
theorem getArguments_firstThree (oa : List JsVal) :
    (getArguments (firstThree oa)).cause = (getArguments oa).cause ∧
    (getArguments (firstThree oa)).message = (getArguments oa).message ∧
    argAt (getArguments (firstThree oa)).properties 0 =
      argAt (getArguments oa).properties 0 := by
  rcases oa with _ | ⟨a, _ | ⟨b, _ | ⟨c, rest⟩⟩⟩
  · exact ⟨rfl, rfl, rfl⟩
  · cases a <;> exact ⟨rfl, rfl, rfl⟩
  · cases a <;> cases b <;> exact ⟨rfl, rfl, rfl⟩
  · cases a <;> cases b <;> cases c <;> exact ⟨rfl, rfl, rfl⟩

/-! ## Theorems -/

/-- C4: message rendering is idempotent and side-effect-free — for every
instance, reading the message accessor twice with no mutation in between
yields identical strings, and `parse(otherTemplate)` with any template
does not mutate the stored template, so a subsequent plain message read
still renders the pre-parse template. -/
theorem message_read_idempotent_parse_pure (e : Inst) (tpl : String) :
    (readMessage e).1 = (readMessage (readMessage e).2).1 ∧
    (readMessage e).2 = e ∧
    ((e.parse tpl).2).template = e.template ∧
    (readMessage ((e.parse tpl).2)).1 = (readMessage e).1 :=
  ⟨rfl, rfl, rfl, rfl⟩

/-- C5: assigning a new string to the message accessor replaces the
stored template (not a pre-rendered string) and changes what subsequent
reads render, while leaving every already-set instance property
unchanged; property mutations after the assignment change future
message reads (reads render the stored template against the live
properties). -/
theorem set_message_retemplates (e : Inst) (v k : String) (val : JsVal) :
    (setMessage e v).template = v ∧
    (setMessage e v).props = e.props ∧
    (readMessage (setMessage e v)).1 = jsTrim (render v e.props) ∧
    (readMessage (setProp (setMessage e v) k val)).1 =
      jsTrim (render v (setOwn e.props k val)) :=
  ⟨rfl, rfl, rfl, rfl⟩

/-- C8: `ServerError(options)` is behaviorally equal to the explicit
composition `Notificator(Loggable(level, WithMessage(message,
HTTP(statusCode, Base))))` with the `WithMessage` layer omitted when no
message option is given, and with the documented defaults (`level`
`"error"`, `statusCode` 500) applied when those options are absent. -/
theorem serverError_is_composition (ol : Option String) (os : Option Nat)
    (om : Option String) (B : ErrClass) (args : List JsVal) :
    (ServerError ol os om B).run args = (serverErrorSpec ol os om B).run args ∧
    (ServerError ol os om B).level = (serverErrorSpec ol os om B).level ∧
    (ServerError ol os om B).statusCode = (serverErrorSpec ol os om B).statusCode ∧
    (ServerError ol os om B).level = some (ol.getD "error") ∧
    (ServerError ol os om B).statusCode = some (os.getD 500) := by
  cases om <;> exact ⟨rfl, rfl, rfl, rfl, rfl⟩

/-- C10: the `WithMessage` and `HTTP` facet constructors forward only the
first properties entry to the wrapped constructor, so every property
entry after the first is silently discarded, unlike the unfaceted base
constructor, which merges all of them. -/
theorem facets_forward_only_first_property (nm tpl m : String)
    (sc : Option Nat) (p1 p2 : List (String × JsVal)) (rest : List JsVal) :
    ((WithMessage tpl (baseClass nm)).run (.vStr m :: .vObj p1 :: rest)).1.props =
      objAssign [] (.vObj p1) ∧
    ((HTTP sc (baseClass nm)).run (.vStr m :: .vObj p1 :: rest)).1.props =
      objAssign [] (.vObj p1) ∧
    (therrorCtor nm [.vStr m, .vObj p1, .vObj p2]).props =
      objAssign (objAssign [] (.vObj p1)) (.vObj p2) ∧
    ((WithMessage "t" (baseClass "F")).run
        [.vStr "m", .vObj [("a", .vNum 1)], .vObj [("b", .vNum 2)]]).1.props =
      [("a", .vNum 1)] ∧
    (therrorCtor "F"
        [.vStr "m", .vObj [("a", .vNum 1)], .vObj [("b", .vNum 2)]]).props =
      [("a", .vNum 1), ("b", .vNum 2)] := by
  refine ⟨?_, ?_, ?_, rfl, rfl⟩
  · have h1 : ((WithMessage tpl (baseClass nm)).run (.vStr m :: .vObj p1 :: rest)).1 =
        therrorCtor nm [.vUndefined, jsOr (.vStr m) (.vStr tpl), .vObj p1] := rfl
    rw [h1, jsOr_str, therrorCtor_props_str_head, applyProperties_singleton_obj]
  · have h2 : ((HTTP sc (baseClass nm)).run (.vStr m :: .vObj p1 :: rest)).1 =
        therrorCtor nm
          [.vUndefined, jsOr (.vStr m) (.vStr (reasonOr500 (sc.getD 500))), .vObj p1] := rfl
    rw [h2, jsOr_str, therrorCtor_props_str_head, applyProperties_singleton_obj]
  · rw [therrorCtor_props]
    rfl

/-- C1 counterexample: for the current HTTP facet (lib/therror.js 4.x),
`new Svc("db down")` with `Svc extends HTTP(503)` yields
`toPayload() = {error: "ServiceUnavailable", message: "Service
Unavailable"}`, not the fixed literal payload
`{error: "InternalServerError", message: "An internal server error
occurred"}` that the claim states. -/
theorem toPayload_503_not_fixed_literal :
    toPayload 503 ((HTTP (some 503) (baseClass "Svc")).run [.vStr "db down"]).1 =
      { error := "ServiceUnavailable", message := "Service Unavailable" } ∧
    toPayload 503 ((HTTP (some 503) (baseClass "Svc")).run [.vStr "db down"]).1 ≠
      { error := "InternalServerError",
        message := "An internal server error occurred" } := by
  refine ⟨rfl, ?_⟩
  decide

/-- C1 (amended): in the current HTTP facet, for every instance of a
type with configured `statusCode >= 500`, `toPayload()` returns the
registry reason phrase of the configured code (PascalCased for `error`,
the 500 phrase for unknown codes) regardless of the instance's actual
message and properties, while the legacy HTTP facet (the 2.x
lib/therror.js also in the repository) returns exactly
`{error: "InternalServerError", message: "An internal server error
occurred"}`; for configured `statusCode < 500` both variants return the
instance's identity name as `error` and its rendered message as
`message`. -/
theorem toPayload_hides_server_errors (sc : Nat) (e : Inst) :
    (500 ≤ sc →
      toPayload sc e =
        { error := upperFirst (camelCase (reasonOr500 sc)),
          message := reasonOr500 sc } ∧
      toPayloadLegacy sc e =
        { error := "InternalServerError",
          message := "An internal server error occurred" }) ∧
    (sc < 500 →
      toPayload sc e = { error := e.name, message := e.message } ∧
      toPayloadLegacy sc e = { error := e.name, message := e.message }) := by
  constructor <;> intro h
  · have hn : ¬ sc < 500 := by omega
    exact ⟨by simp [toPayload, getPayloadErrorName, getPayloadMessage, hn],
      by simp [toPayloadLegacy, h]⟩
  · have hn : ¬ 500 ≤ sc := by omega
    exact ⟨by simp [toPayload, getPayloadErrorName, getPayloadMessage, h],
      by simp [toPayloadLegacy, hn]⟩

/-- C1 witness: the amended theorem applied at status code 503 and a
concrete instance. -/
theorem toPayload_hides_server_errors_witness :
    500 ≤ 503 ∧
    toPayload 503 ((HTTP (some 503) (baseClass "Svc")).run [.vStr "db down"]).1 =
      { error := upperFirst (camelCase (reasonOr500 503)),
        message := reasonOr500 503 } :=
  ⟨by decide,
    ((toPayload_hides_server_errors 503
        ((HTTP (some 503) (baseClass "Svc")).run [.vStr "db down"]).1).1
      (by decide)).1⟩

/-- C7 counterexample: for the Notificator-faceted type
`Namespaced("NS", Notificator(Base))` — Notificator composed inside
another facet — construction publishes its single `create` event
carrying the instance as it stands before the outer `Namespaced`
constructor runs: the published payload has identity `"X"` while the
fully-composed instance has identity `"NS.X"`, so the publish neither
happens after all facet constructors in the chain have completed nor
carries the fully-composed instance. -/
theorem notificator_inner_publishes_early :
    ((Namespaced "NS" (Notificator (baseClass "X"))).run [.vStr "boom"]).2.map
        (fun ev => ev.2.name) = ["X"] ∧
    ((Namespaced "NS" (Notificator (baseClass "X"))).run [.vStr "boom"]).1.name =
      "NS.X" ∧
    ((Namespaced "NS" (Notificator (baseClass "X"))).run [.vStr "boom"]).2.map
        (fun ev => ev.2.name) ≠
      [((Namespaced "NS" (Notificator (baseClass "X"))).run [.vStr "boom"]).1.name] := by
  refine ⟨rfl, rfl, ?_⟩
  decide

/-- C7 (amended): when Notificator is the outermost facet of the chain —
as the library documentation prescribes and as `ServerError` composes it
— and the wrapped chain itself publishes nothing, construction publishes
exactly one `create` event, after the wrapped facet constructors and
Notificator's own wrapping have completed, carrying the
fully-constructed instance as payload. -/
theorem notificator_outermost_single_event (B : ErrClass)
    (hB : ∀ a, (B.run a).2 = []) (args : List JsVal) :
    ((Notificator B).run args).2 =
      [("create", ((Notificator B).run args).1)] := by
  simp [Notificator, hB]

/-- C7 witness: the amended theorem applied to Notificator over the base
class at a concrete argument list. -/
theorem notificator_outermost_single_event_witness :
    (∀ a, ((baseClass "X").run a).2 = []) ∧
    ((Notificator (baseClass "X")).run [.vStr "boom"]).2 =
      [("create", ((Notificator (baseClass "X")).run [.vStr "boom"]).1)] :=
  ⟨fun _ => rfl,
    notificator_outermost_single_event (baseClass "X") (fun _ => rfl) [.vStr "boom"]⟩

/-- C3: for every constructor call in which no explicit message is
resolved by the normalizer (`args.message` is falsy): if a cause was
supplied and it has a (truthy) message, the instance's stored template
is that cause's own message; if there is no (truthy) cause, or the
cause's message is absent/falsy, the stored template is the fixed
literal `"Unknown error"`. -/
theorem defaulted_template_from_cause (nm : String) (args : List JsVal)
    (h : jsTruthy (getArguments args).message = false) :
    (jsTruthy (getArguments args).cause = true →
      jsTruthy (jsGetMessage (getArguments args).cause) = true →
      (therrorCtor nm args).template =
        lodashToString (jsGetMessage (getArguments args).cause)) ∧
    (jsTruthy (getArguments args).cause = false →
      (therrorCtor nm args).template = "Unknown error") ∧
    (jsTruthy (jsGetMessage (getArguments args).cause) = false →
      (therrorCtor nm args).template = "Unknown error") := by
  have hT : (therrorCtor nm args).template =
      lodashToString (templateSource (getArguments args)) := rfl
  refine ⟨fun hc hg => ?_, fun hc => ?_, fun hg => ?_⟩
  · rw [hT]; unfold templateSource jsOr jsAnd
    simp [h, hc, hg]
  · rw [hT]; unfold templateSource jsOr jsAnd
    simp [h, hc, lodashToString, jsToStr]
  · rw [hT]; unfold templateSource jsOr jsAnd
    cases hc : jsTruthy (getArguments args).cause <;>
      simp [h, hc, hg, lodashToString, jsToStr]

/-- C3 witness: constructing with only an `Error` cause resolves no
explicit message, and the stored template is the cause's message. -/
theorem defaulted_template_from_cause_witness :
    jsTruthy (getArguments [JsVal.vErr "boom"]).message = false ∧
    (therrorCtor "W" [JsVal.vErr "boom"]).template =
      lodashToString (jsGetMessage (getArguments [JsVal.vErr "boom"]).cause) :=
  ⟨by decide,
    (defaulted_template_from_cause "W" [JsVal.vErr "boom"] (by decide)).1
      (by decide) (by decide)⟩

/-- Property access `v.message` cannot throw on an object value. -/
theorem jsGetMessageE_ok_of_isObject (v : JsVal) (h : isObjectV v = true) :
    jsGetMessageE v = .ok (jsGetMessage v) := by
  cases v <;> simp_all [isObjectV, jsGetMessageE]

/-- Property access `v.message` cannot throw on a truthy value. -/
theorem jsGetMessageE_ok_of_truthy (v : JsVal) (h : jsTruthy v = true) :
    jsGetMessageE v = .ok (jsGetMessage v) := by
  cases v <;> simp_all [jsTruthy, jsGetMessageE]

/-- The throwing normalizer never throws and agrees with the total one:
its only property access is guarded by the object check. -/
theorem parseTailE_eq (args : List JsVal) :
    parseTailE args = .ok (parseTail args) := by
  unfold parseTailE parseTail
  cases h1 : isStr (argAt args 0) || isStr (argAt args 1) <;> simp [h1]
  cases h2 : isObjectV (argAt args 0) <;> simp [h2]
  rw [jsGetMessageE_ok_of_isObject _ h2]
  rfl

/-- `getArguments` never throws and agrees with the total translation. -/
theorem getArgumentsE_eq (oa : List JsVal) :
    getArgumentsE oa = .ok (getArguments oa) := by
  unfold getArgumentsE getArguments
  cases h1 : isErrV (argAt oa 0) || isStr (argAt oa 1) <;>
    simp [h1, parseTailE_eq] <;> rfl

/-- The template-defaulting chain never throws (the
`args.cause.message` read is short-circuit-guarded by `args.cause`) and
agrees with the total translation. -/
theorem templateSourceE_eq (n : NormArgs) :
    templateSourceE n = .ok (templateSource n) := by
  unfold templateSourceE templateSource jsOr jsAnd
  cases h1 : jsTruthy n.message <;> simp [h1]
  cases h2 : jsTruthy n.cause <;> simp [h2]
  rw [jsGetMessageE_ok_of_truthy _ h2]
  show (if jsTruthy (jsGetMessage n.cause) = true then
      Except.ok (jsGetMessage n.cause)
    else Except.ok (JsVal.vStr "Unknown error")) = _
  cases h3 : jsTruthy (jsGetMessage n.cause) <;> simp [h3]

/-- A single descriptor-aware assignment step throws only on the
`isTherror` key. -/
theorem setInstKeyE_ok (e : Inst) (k : String) (v : JsVal)
    (h : (k == "isTherror") = false) :
    setInstKeyE e k v = .ok (setInstKey e k v) := by
  unfold setInstKeyE
  simp [h]

/-- `Object.assign` of object fields succeeds when no field collides
with `isTherror`, and agrees with the total translation. -/
theorem assignFieldsInstE_ok (fs : List (String × JsVal)) :
    ∀ e : Inst, (fs.any fun p => p.1 == "isTherror") = false →
      assignFieldsInstE e fs = .ok (assignFieldsInst e fs) := by
  induction fs with
  | nil => intro e _; rfl
  | cons p fs ih =>
    obtain ⟨k, v⟩ := p
    intro e h
    rw [List.any_cons] at h
    obtain ⟨h1, h2⟩ := Bool.or_eq_false_iff.mp h
    show (setInstKeyE e k v).bind _ = _
    rw [setInstKeyE_ok e k v h1]
    show assignFieldsInstE (setInstKey e k v) fs = _
    exact ih _ h2

/-- `Object.assign` of a safe property argument succeeds and agrees
with the total translation. -/
theorem objAssignInstE_ok (e : Inst) (v : JsVal) (h : objSafe v = true) :
    objAssignInstE e v = .ok (objAssignInst e v) := by
  cases v
  case vObj fs =>
    refine assignFieldsInstE_ok fs e ?_
    simpa [objSafe] using h
  all_goals rfl

/-- The throwing property loop succeeds on a safe properties list and
agrees with the total translation. -/
theorem applyPropsFromE_ok (ps : List JsVal) :
    ∀ (i : Nat) (e : Inst), propsSafe ps = true →
      applyPropsFromE e i ps = .ok (applyPropsFrom e i ps) := by
  induction ps with
  | nil => intro i e _; rfl
  | cons v rest ih =>
    intro i e h
    simp only [propsSafe, List.all_cons, Bool.and_eq_true] at h
    cases v
    case vStr s => exact ih (i + 1) _ h.2
    case vObj fs =>
      have e1 : applyPropsFromE e i (JsVal.vObj fs :: rest) =
          (objAssignInstE e (.vObj fs)).bind
            (fun e2 => applyPropsFromE e2 (i + 1) rest) := rfl
      rw [e1, objAssignInstE_ok e (.vObj fs) h.1]
      show applyPropsFromE (objAssignInst e (.vObj fs)) (i + 1) rest = _
      exact ih (i + 1) _ h.2
    all_goals exact ih (i + 1) _ h.2

/-- C9 counterexample: construction does throw — `new Therror({isTherror:
1})` makes `Object.assign` hit the own non-writable `isTherror`
property installed by the constructor, raising a `TypeError`, so the
claim that no constructor input ever throws is false. -/
theorem construction_throws_on_isTherror_key :
    therrorCtorE "T" [.vObj [("isTherror", .vNum 1)]] =
      .error "TypeError: Cannot assign to read only property isTherror" :=
  rfl

/-- C9 (amended): no public operation of the base error entity throws,
with one exception: a properties object carrying a key that collides
with the instance's own non-writable `isTherror` capability flag makes
`Object.assign` raise a `TypeError` mid-construction.  On every
argument list whose normalized property entries are free of that
collision, the construction path — re-translated with real JavaScript
partiality for property access on undefined/null values and for the
throwing `Object.assign` — succeeds and returns exactly the instance of
the total translation (worst case an empty-properties, default-message
instance); `cause()`, `parse()` and the message accessors are
manifestly total state functions (`Inst.cause`, `Inst.parse`,
`readMessage`, `setMessage`). -/
theorem construction_never_throws (nm : String) (args : List JsVal)
    (h : propsSafe (getArguments args).properties = true) :
    therrorCtorE nm args = .ok (therrorCtor nm args) := by
  unfold therrorCtorE therrorCtor
  rw [getArgumentsE_eq]
  show (applyPropsFromE _ 0 (getArguments args).properties).bind _ = _
  rw [applyPropsFromE_ok _ _ _ h]
  show (templateSourceE (getArguments args)).bind _ = _
  rw [templateSourceE_eq]
  rfl

/-- C9 witness: the amended theorem applied to a concrete collision-free
argument list. -/
theorem construction_never_throws_witness :
    propsSafe (getArguments [.vStr "Hi", .vObj [("x", .vNum 1)]]).properties = true ∧
    therrorCtorE "W2" [.vStr "Hi", .vObj [("x", .vNum 1)]] =
      .ok (therrorCtor "W2" [.vStr "Hi", .vObj [("x", .vNum 1)]]) :=
  ⟨by decide,
    construction_never_throws "W2" [.vStr "Hi", .vObj [("x", .vNum 1)]] (by decide)⟩

/-- C6: facet composition order never affects the canonical argument
parsing — for every constructor argument list, the types
`HTTP(Namespaced(Base))` and `Namespaced(HTTP(Base))` produce instances
with identical cause, message template and properties (only the identity
string and the set of available accessors may differ). -/
theorem facet_order_independent_parsing (nm ns : String) (sc : Option Nat)
    (args : List JsVal) :
    ((HTTP sc (Namespaced ns (baseClass nm))).run args).1.causeV =
      ((Namespaced ns (HTTP sc (baseClass nm))).run args).1.causeV ∧
    ((HTTP sc (Namespaced ns (baseClass nm))).run args).1.template =
      ((Namespaced ns (HTTP sc (baseClass nm))).run args).1.template ∧
    ((HTTP sc (Namespaced ns (baseClass nm))).run args).1.props =
      ((Namespaced ns (HTTP sc (baseClass nm))).run args).1.props := by
  obtain ⟨h1, h2, h3⟩ := getArguments_firstThree args
  have e1 : ((HTTP sc (Namespaced ns (baseClass nm))).run args).1 =
      (fun e : Inst =>
          { e with name := if e.name ≠ "" then ns ++ "." ++ e.name else ns })
        (therrorCtor nm
          [(getArguments args).cause,
            jsOr (getArguments args).message
              (jsOr
                (jsAnd (getArguments args).cause
                  (jsGetMessage (getArguments args).cause))
                (.vStr (reasonOr500 (sc.getD 500)))),
            argAt (getArguments args).properties 0]) := rfl
  have e2 : ((Namespaced ns (HTTP sc (baseClass nm))).run args).1 =
      (fun e : Inst =>
          { e with name := if e.name ≠ "" then ns ++ "." ++ e.name else ns })
        (therrorCtor nm
          [(getArguments (firstThree args)).cause,
            jsOr (getArguments (firstThree args)).message
              (jsOr
                (jsAnd (getArguments (firstThree args)).cause
                  (jsGetMessage (getArguments (firstThree args)).cause))
                (.vStr (reasonOr500 (sc.getD 500)))),
            argAt (getArguments (firstThree args)).properties 0]) := rfl
  have key : ((HTTP sc (Namespaced ns (baseClass nm))).run args).1 =
      ((Namespaced ns (HTTP sc (baseClass nm))).run args).1 := by
    rw [e1, e2, h1, h2, h3]
  exact ⟨by rw [key], by rw [key], by rw [key]⟩

/-- C2 (amended): for every variadic argument list of the enumerated
constructor shapes — no arguments; message; message and properties;
cause, message and properties; cause alone; properties object with a
`message` key — the constructed instance's cause, message template and
own enumerable properties are those prescribed by the normalizer
precedence rules, where the property merge is `Object.assign` through
the instance's pre-installed descriptors: keys colliding with them
(`message`, which hits the prototype accessor's setter; `name` and
`stack`, own non-enumerable slots; `isTherror`, own and read-only —
this one raising a `TypeError`, see C9) never become own enumerable
properties, and every other key is shallow-merged last-write-wins as
`objAssign` states.  In particular, if the first argument is an
error-like value or the second argument is a string, the first argument
becomes the cause and the rest shift left, and e.g.
`Construct(causeErr, "msg ${x}", {x: 1})` yields cause = `causeErr`,
rendered message `"msg 1"` and property `x = 1`. -/
theorem constructor_shapes_normalize (nm cmsg msg m : String)
    (p : List (String × JsVal)) (hmsg : msg ≠ "") :
    ((therrorCtor nm []).causeV = .vUndefined ∧
      (therrorCtor nm []).template = "Unknown error" ∧
      (therrorCtor nm []).props = []) ∧
    ((therrorCtor nm [.vStr msg]).causeV = .vUndefined ∧
      (therrorCtor nm [.vStr msg]).template = msg ∧
      (therrorCtor nm [.vStr msg]).props = []) ∧
    ((therrorCtor nm [.vStr msg, .vObj p]).causeV = .vUndefined ∧
      (therrorCtor nm [.vStr msg, .vObj p]).template = msg ∧
      (therrorCtor nm [.vStr msg, .vObj p]).props = objAssign [] (.vObj p)) ∧
    ((therrorCtor nm [.vErr cmsg, .vStr msg, .vObj p]).causeV = .vErr cmsg ∧
      (therrorCtor nm [.vErr cmsg, .vStr msg, .vObj p]).template = msg ∧
      (therrorCtor nm [.vErr cmsg, .vStr msg, .vObj p]).props =
        objAssign [] (.vObj p)) ∧
    ((therrorCtor nm [.vErr cmsg]).causeV = .vErr cmsg ∧
      (therrorCtor nm [.vErr cmsg]).template =
        (if cmsg = "" then "Unknown error" else cmsg) ∧
      (therrorCtor nm [.vErr cmsg]).props = []) ∧
    ((therrorCtor nm [.vObj p]).causeV = .vUndefined ∧
      (therrorCtor nm [.vObj p]).props = objAssign [] (.vObj p) ∧
      (lookupField p "message" = .vStr m → m ≠ "" →
        (therrorCtor nm [.vObj p]).template = m)) ∧
    (∀ (a : JsVal) (rest : List JsVal),
      (isErrV a || isStr (argAt rest 0)) = true →
      getArguments (a :: rest) =
        { cause := a, message := (parseTail rest).1,
          properties := (parseTail rest).2 }) ∧
    ((therrorCtor nm [.vErr cmsg, .vStr "msg ${x}", .vObj [("x", .vNum 1)]]).causeV
        = .vErr cmsg ∧
      (therrorCtor nm [.vErr cmsg, .vStr "msg ${x}", .vObj [("x", .vNum 1)]]).message
        = "msg 1" ∧
      lookupField
        (therrorCtor nm
          [.vErr cmsg, .vStr "msg ${x}", .vObj [("x", .vNum 1)]]).props "x" =
        .vNum 1) := by
  have ht := jsTruthy_vStr_of_ne msg hmsg
  refine ⟨⟨rfl, rfl, rfl⟩, ⟨rfl, ?_, rfl⟩, ⟨rfl, ?_, ?_⟩, ⟨rfl, ?_, ?_⟩,
    ⟨rfl, ?_, rfl⟩, ⟨rfl, ?_, fun hm hm2 => ?_⟩, fun a rest hc => ?_,
    ⟨rfl, rfl, rfl⟩⟩
  · show lodashToString (jsOr (.vStr msg) _) = msg
    rw [jsOr_of_truthy _ _ ht]; rfl
  · show lodashToString (jsOr (.vStr msg) _) = msg
    rw [jsOr_of_truthy _ _ ht]; rfl
  · rw [therrorCtor_props]
    rfl
  · show lodashToString (jsOr (.vStr msg) _) = msg
    rw [jsOr_of_truthy _ _ ht]; rfl
  · rw [therrorCtor_props]
    rfl
  · show lodashToString
        (jsOr .vUndefined (jsOr (jsAnd (.vErr cmsg) (jsGetMessage (.vErr cmsg)))
          (.vStr "Unknown error"))) = _
    rw [jsOr_of_falsy .vUndefined _ rfl]
    by_cases hc : cmsg = ""
    · subst hc; rfl
    · rw [if_neg hc]
      have hand : jsAnd (.vErr cmsg) (jsGetMessage (.vErr cmsg)) = .vStr cmsg := rfl
      rw [hand, jsOr_of_truthy _ _ (jsTruthy_vStr_of_ne cmsg hc)]; rfl
  · rw [therrorCtor_props]
    rfl
  · show lodashToString (jsOr (jsGetMessage (.vObj p)) _) = m
    have hmsgkey : jsGetMessage (.vObj p) = lookupField p "message" := rfl
    rw [hmsgkey, hm, jsOr_of_truthy _ _ (jsTruthy_vStr_of_ne m hm2)]; rfl
  · simp only [getArguments, argAt, List.getD_cons_zero, List.getD_cons_succ,
      List.drop_succ_cons, List.drop_zero]
    rw [if_pos]
    exact of_decide_eq_true (by rw [decide_eq_true_eq]; exact hc)

/-- C2 witness: the shapes theorem applied at a concrete class name,
cause message, message template and properties object. -/
theorem constructor_shapes_normalize_witness :
    ("msg ${x}" ≠ "") ∧
    (therrorCtor "C" [.vErr "root", .vStr "msg ${x}", .vObj [("x", .vNum 1)]]).message
      = "msg 1" ∧
    (therrorCtor "C" [.vObj [("message", .vStr "mm"), ("x", .vNum 7)]]).template
      = "mm" := by
  have H := constructor_shapes_normalize "C" "root" "msg ${x}" "mm"
    [("message", JsVal.vStr "mm"), ("x", JsVal.vNum 7)] (by decide)
  exact ⟨by decide, H.2.2.2.2.2.2.2.2.1,
    H.2.2.2.2.2.1.2.2 rfl (by decide)⟩

/-- C2 counterexample: the claim's plain shallow merge of every
properties key is false of the code — `new Therror({message: 'mm',
x: 7})` ends with own enumerable properties `{x: 7}` only: the
`message` key is intercepted by the inherited prototype setter (the
template still becomes `"mm"`, via the normalizer's rule-3 message
extraction), whereas the merge the claim prescribes would install an
own `message` property. -/
theorem properties_merge_skips_reserved :
    (therrorCtor "C" [.vObj [("message", .vStr "mm"), ("x", .vNum 7)]]).props =
      [("x", .vNum 7)] ∧
    lookupField
      (therrorCtor "C" [.vObj [("message", .vStr "mm"), ("x", .vNum 7)]]).props
      "message" = .vUndefined ∧
    lookupField
      (setOwn (setOwn [] "message" (.vStr "mm")) "x" (.vNum 7)) "message" =
      .vStr "mm" ∧
    (therrorCtor "C" [.vObj [("message", .vStr "mm"), ("x", .vNum 7)]]).props ≠
      setOwn (setOwn [] "message" (.vStr "mm")) "x" (.vNum 7) := by
  refine ⟨rfl, rfl, rfl, fun hEq => ?_⟩
  have h2 := congrArg (fun l => lookupField l "message") hEq
  exact JsVal.noConfusion h2

end TherrorModel







